import Mathlib

/-!
# Verification of the toy bank register (Flask CRUD app)

A shallow embedding of `src/app.py`: the `banks` table, the repository
operations it issues over SQL, the web-form handlers and the JSON API
handlers, together with proofs of the behavioural claims about them.

The database backend is modelled as a list of rows plus the
`IDENTITY(1,1)` counter; each handler is a pure function from the
database state (and the request data) to a response and the new state.
Backend faults (connection/query failures) are injected through explicit
`Bool`/`Except` parameters where a claim depends on them.
-/

namespace ToyBank

/-- A row of the `banks` table: `id INT PRIMARY KEY IDENTITY(1,1)`,
`name NVARCHAR(255)`, `location NVARCHAR(255)` (app.py, `init_database`). -/
structure Bank where
  id : Nat
  name : String
  location : String
  deriving Repr, DecidableEq

/-- The state of the `banks` table: the rows in insertion order together
with the next value of the `IDENTITY(1,1)` column (which starts at 1). -/
structure DB where
  rows : List Bank
  nextId : Nat
  deriving Repr, DecidableEq

/-- The freshly created table. -/
def DB.empty : DB := { rows := [], nextId := 1 }

/-! ## Python `str.strip()` -/

/-- Drop leading and trailing whitespace characters, on the character
list underlying a string.  This is the character-level content of
Python's `str.strip()` with no argument. -/
def stripChars (cs : List Char) : List Char :=
  ((cs.dropWhile Char.isWhitespace).reverse.dropWhile Char.isWhitespace).reverse

/-- Embedding of Python's `str.strip()` (no argument): remove leading and
trailing whitespace.  Used by every create/update path of app.py. -/
def pyStrip (s : String) : String := String.mk (stripChars s.data)

/-! ## Record repository: the SQL statements app.py executes

Each operation is one statement on one connection.  The table semantics
is modelled on `DB`; the SQL texts themselves are modelled separately
below for the parameterization claim. -/

/-- Listing order of `SELECT ... ORDER BY name`: compare rows by name. -/
def bankLe (a b : Bank) : Prop := a.name ≤ b.name

instance : DecidableRel bankLe := fun a b =>
  inferInstanceAs (Decidable (a.name ≤ b.name))

instance : IsTotal Bank bankLe := ⟨fun a b => le_total a.name b.name⟩

instance : IsTrans Bank bankLe := ⟨fun _ _ _ hab hbc => le_trans hab hbc⟩

/-- `SELECT id, name, location FROM banks ORDER BY name` (app.py lines
107, 279): all rows, sorted ascending by name. -/
def selectAll (db : DB) : List Bank := List.insertionSort bankLe db.rows

/-- `SELECT id, name, location FROM banks WHERE id = ?` (app.py lines
130, 230, 307): the first row whose id matches, if any.  Also covers the
existence check `SELECT id FROM banks WHERE id = ?` (lines 407, 443). -/
def selectById (db : DB) (i : Nat) : Option Bank :=
  db.rows.find? (fun b => b.id == i)

/-- `INSERT INTO banks (name, location) VALUES (?, ?)` followed by
`SELECT @@IDENTITY AS id` (app.py lines 172, 359, 364): append a row
with the next identity value and return that value. -/
def insertRow (db : DB) (n l : String) : DB × Nat :=
  ({ rows := db.rows ++ [{ id := db.nextId, name := n, location := l }],
     nextId := db.nextId + 1 }, db.nextId)

/-- `UPDATE banks SET name = ?, location = ? WHERE id = ?` (app.py lines
212, 414): rewrite name and location of every row whose id matches. -/
def updateRows (db : DB) (i : Nat) (n l : String) : DB :=
  { db with
    rows := db.rows.map fun b =>
      if b.id = i then { b with name := n, location := l } else b }

/-- `DELETE FROM banks WHERE id = ?` (app.py lines 257, 449): remove
every row whose id matches. -/
def deleteRows (db : DB) (i : Nat) : DB :=
  { db with rows := db.rows.filter fun b => !(b.id == i) }

/-! ## JSON request bodies -/

/-- A JSON value, as delivered by Flask's `request.get_json()`. -/
inductive JVal where
  | str (s : String)
  | num (n : Int)
  | boolV (b : Bool)
  | null
  | arr (elems : List JVal)
  | obj (fields : List (String × JVal))

/-- A JSON object body: key/value pairs. -/
def JObj := List (String × JVal)

/-- Python `dict.get(k, default)`. -/
def jsonGet (d : JObj) (k : String) (dflt : JVal) : JVal :=
  match List.find? (fun kv => kv.fst == k) d with
  | some kv => kv.snd
  | none => dflt

/-- A Python exception raised inside a handler body. -/
inductive PyFault where
  | attributeError
  deriving Repr, DecidableEq

/-- `v.strip()` on a value taken from a JSON body: defined on strings,
raises `AttributeError` on every other value. -/
def pyStripVal : JVal → Except PyFault String
  | .str s => .ok (pyStrip s)
  | _ => .error .attributeError

/-- Is this JSON value a string? -/
def JVal.isStr : JVal → Bool
  | .str _ => true
  | _ => false

/-! ## API handler layer -/

/-- The JSON envelope + HTTP status returned by the API handlers of
app.py, one constructor per distinct response shape. -/
inductive ApiResp where
  /-- 200 `{success: true, data: [...], count: n}` -/
  | listOk (banks : List Bank)
  /-- 200 `{success: true, data: {id, name, location}}` -/
  | getOk (id : Nat) (name location : String)
  /-- 201 `{success: true, data: {id, name, location}, message}` -/
  | createdOk (id : Nat) (name location : String)
  /-- 200 `{success: true, data: {id, name, location}, message}` -/
  | updatedOk (id : Nat) (name location : String)
  /-- 200 `{success: true, message}` -/
  | deletedOk
  /-- 400 `{success: false, error: "No data provided"}` -/
  | noData
  /-- 400 `{success: false, error: "Name and location are required"}` -/
  | validationError
  /-- 404 `{success: false, error: "Bank not found"}` -/
  | notFound
  /-- 500 `{success: false, error: str(e)}` -/
  | serverFault (e : PyFault)
  deriving Repr, DecidableEq

/-- The HTTP status code of each API response. -/
def ApiResp.status : ApiResp → Nat
  | .listOk _ => 200
  | .getOk _ _ _ => 200
  | .createdOk _ _ _ => 201
  | .updatedOk _ _ _ => 200
  | .deletedOk => 200
  | .noData => 400
  | .validationError => 400
  | .notFound => 404
  | .serverFault _ => 500

/-- The `success` field of each API response envelope. -/
def ApiResp.success : ApiResp → Bool
  | .noData => false
  | .validationError => false
  | .notFound => false
  | .serverFault _ => false
  | _ => true

/-- Outcome of parsing/validating a JSON body the way both
`api_create_bank` (app.py lines 339-352) and `api_update_bank` (lines
387-401) do: `request.get_json()`, the `if not data` check, then
`data.get("name", "").strip()` and `data.get("location", "").strip()`
(each may raise), then the non-empty check.  `data = none` stands for a
request without a JSON body; a present body is its key/value list, and
`if not data` is also true for an empty object. -/
inductive BodyOutcome where
  | noData
  | fault (e : PyFault)
  | invalid
  | ok (name location : String)
  deriving Repr, DecidableEq

/-- The shared parse/validate step of the API create and update
handlers (app.py lines 339-352 and 387-401, textually identical). -/
def parseApiBody (data : Option JObj) : BodyOutcome :=
  match data with
  | none => .noData
  | some d =>
    if d.isEmpty then .noData
    else
      match pyStripVal (jsonGet d "name" (.str "")) with
      | .error e => .fault e
      | .ok name =>
        match pyStripVal (jsonGet d "location" (.str "")) with
        | .error e => .fault e
        | .ok location =>
          if name = "" ∨ location = "" then .invalid
          else .ok name location

/-- `POST /api/banks` (app.py `api_create_bank`, lines 332-378): parse
and validate the body, insert the row, read `@@IDENTITY`, and answer
201 with the created record; any exception from the body handling is
caught by the generic handler and answered 500. -/
def api_create_bank (db : DB) (data : Option JObj) : ApiResp × DB :=
  match parseApiBody data with
  | .noData => (.noData, db)
  | .fault e => (.serverFault e, db)
  | .invalid => (.validationError, db)
  | .ok name location =>
    let ins := insertRow db name location
    (.createdOk ins.2 name location, ins.1)

/-- `GET /api/banks` (app.py `api_get_banks`, lines 271-295): all rows
ordered by name, status 200 even when the table is empty. -/
def api_get_banks (db : DB) : ApiResp × DB :=
  (.listOk (selectAll db), db)

/-- `GET /api/banks/{id}` (app.py `api_get_bank`, lines 298-329): the
row if it exists, else 404. -/
def api_get_bank (db : DB) (i : Nat) : ApiResp × DB :=
  match selectById db i with
  | some b => (.getOk b.id b.name b.location, db)
  | none => (.notFound, db)

/-- `PUT /api/banks/{id}` (app.py `api_update_bank`, lines 381-430):
parse and validate the body, then check existence (404 if absent), then
update and answer 200 with the updated record. -/
def api_update_bank (db : DB) (i : Nat) (data : Option JObj) : ApiResp × DB :=
  match parseApiBody data with
  | .noData => (.noData, db)
  | .fault e => (.serverFault e, db)
  | .invalid => (.validationError, db)
  | .ok name location =>
    match selectById db i with
    | none => (.notFound, db)
    | some _ => (.updatedOk i name location, updateRows db i name location)

/-- `DELETE /api/banks/{id}` (app.py `api_delete_bank`, lines 433-457):
check existence (404 if absent), then delete and answer 200. -/
def api_delete_bank (db : DB) (i : Nat) : ApiResp × DB :=
  match selectById db i with
  | none => (.notFound, db)
  | some _ => (.deletedOk, deleteRows db i)

/-! ## Web handler layer

Form fields arrive as strings (`request.form.get(k, "")` always yields a
string).  Backend faults (the `except Exception` arms around the scoped
connection) are injected through an explicit `fault : Bool` parameter;
on a fault the handler never reaches `conn.commit()`, so the table is
unchanged. -/

/-- A flash notice: category and message, as passed to `flash`. -/
inductive Flash where
  | success (msg : String)
  | warning (msg : String)
  | danger (msg : String)
  deriving Repr, DecidableEq

/-- The observable result of a web handler: which page is rendered or
redirected to, and the flash notice set, if any. -/
inductive WebResp where
  | renderIndex (banks : List Bank) (flash : Option Flash)
  | renderView (bank : Bank)
  | renderCreateForm (flash : Option Flash)
  | renderEditForm (bank : Bank)
  | redirectIndex (flash : Option Flash)
  | redirectView (id : Nat) (flash : Option Flash)
  | redirectEdit (id : Nat) (flash : Option Flash)
  deriving Repr, DecidableEq

/-- `GET /` (app.py `index`, lines 97-116): list all banks ordered by
name; on a backend fault render the empty list with an error notice. -/
def index (fault : Bool) (db : DB) : WebResp :=
  if fault then
    .renderIndex [] (some (.danger "Error fetching banks"))
  else
    .renderIndex (selectAll db) none

/-- `GET /bank/{id}` (app.py `view_bank`, lines 119-145): render the
detail view, or redirect to the index with a notice when absent. -/
def view_bank (db : DB) (i : Nat) : WebResp :=
  match selectById db i with
  | some b => .renderView b
  | none => .redirectIndex (some (.warning "Bank not found"))

/-- `POST /bank/new` (app.py `create_bank`, lines 148-186): strip the
form fields, re-render the form with a notice when either is empty,
otherwise insert and redirect to the index; on a backend fault re-render
the form with an error notice and leave the table unchanged. -/
def create_bank_post (fault : Bool) (db : DB) (formName formLoc : String) :
    WebResp × DB :=
  let name := pyStrip formName
  let location := pyStrip formLoc
  if name = "" ∨ location = "" then
    (.renderCreateForm (some (.warning "Name and location are required")), db)
  else if fault then
    (.renderCreateForm (some (.danger "Error creating bank")), db)
  else
    (.redirectIndex (some (.success "Bank created successfully!")),
     (insertRow db name location).1)

/-- `POST /bank/{id}/edit` (app.py `edit_bank`, lines 189-244): strip
the form fields, redirect back to the edit form with a notice when
either is empty, otherwise update (no existence check) and redirect to
the detail view; on a backend fault the table is unchanged and the
handler falls through to the fetch-and-render arm, whose own connection
faults too, redirecting to the index with an error notice. -/
def edit_bank_post (fault : Bool) (db : DB) (i : Nat)
    (formName formLoc : String) : WebResp × DB :=
  let name := pyStrip formName
  let location := pyStrip formLoc
  if name = "" ∨ location = "" then
    (.redirectEdit i (some (.warning "Name and location are required")), db)
  else if fault then
    (.redirectIndex (some (.danger "Error updating bank")), db)
  else
    (.redirectView i (some (.success "Bank updated successfully!")),
     updateRows db i name location)

/-- `POST /bank/{id}/delete` (app.py `delete_bank`, lines 247-267):
execute the DELETE — with no existence check and no look at the affected
row count — flash success, and redirect to the index; on a backend fault
flash an error, leave the table unchanged, and still redirect to the
index. -/
def delete_bank (fault : Bool) (db : DB) (i : Nat) : WebResp × DB :=
  if fault then
    (.redirectIndex (some (.danger "Error deleting bank")), db)
  else
    (.redirectIndex (some (.success "Bank deleted successfully!")),
     deleteRows db i)

/-! ## Sequences of operations

Every state-changing entry point of app.py, as a single step relation,
to quantify over all reachable table states. -/

/-- One state-changing request. -/
inductive Op where
  | apiCreate (data : Option JObj)
  | apiUpdate (i : Nat) (data : Option JObj)
  | apiDelete (i : Nat)
  | webCreate (fault : Bool) (name loc : String)
  | webEdit (fault : Bool) (i : Nat) (name loc : String)
  | webDelete (fault : Bool) (i : Nat)

/-- The table state after one request. -/
def applyOp (db : DB) : Op → DB
  | .apiCreate d => (api_create_bank db d).2
  | .apiUpdate i d => (api_update_bank db i d).2
  | .apiDelete i => (api_delete_bank db i).2
  | .webCreate f n l => (create_bank_post f db n l).2
  | .webEdit f i n l => (edit_bank_post f db i n l).2
  | .webDelete f i => (delete_bank f db i).2

/-- The table state after a sequence of requests against a fresh table. -/
def runOps (ops : List Op) : DB := ops.foldl applyOp DB.empty

/-! ## The SQL statements as submitted

Every `cursor.execute(sql, params)` call of app.py, as the pair of the
SQL text and the bound parameter tuple, to state that the text never
depends on user input. -/

/-- A value bound to a `?` placeholder. -/
inductive SqlParam where
  | intP (n : Nat)
  | strP (s : String)
  deriving Repr, DecidableEq

/-- One `cursor.execute` call: the SQL text and the parameter tuple. -/
structure SqlStmt where
  sql : String
  params : List SqlParam
  deriving Repr, DecidableEq

/-- app.py lines 107, 279. -/
def selectAllStmt : SqlStmt :=
  ⟨"SELECT id, name, location FROM banks ORDER BY name", []⟩

/-- app.py lines 129-131, 229-231, 306-308. -/
def selectByIdStmt (i : Nat) : SqlStmt :=
  ⟨"SELECT id, name, location FROM banks WHERE id = ?", [.intP i]⟩

/-- app.py lines 171-173, 358-360. -/
def insertStmt (n l : String) : SqlStmt :=
  ⟨"INSERT INTO banks (name, location) VALUES (?, ?)", [.strP n, .strP l]⟩

/-- app.py lines 211-214, 413-416. -/
def updateStmt (i : Nat) (n l : String) : SqlStmt :=
  ⟨"UPDATE banks SET name = ?, location = ? WHERE id = ?",
   [.strP n, .strP l, .intP i]⟩

/-- app.py lines 257, 449. -/
def deleteStmt (i : Nat) : SqlStmt :=
  ⟨"DELETE FROM banks WHERE id = ?", [.intP i]⟩

/-- app.py lines 407, 443 (the existence checks). -/
def existsStmt (i : Nat) : SqlStmt :=
  ⟨"SELECT id FROM banks WHERE id = ?", [.intP i]⟩

/-- app.py line 364 (read back the generated identity). -/
def identityStmt : SqlStmt :=
  ⟨"SELECT @@IDENTITY AS id", []⟩

/-! ## Connection manager -/

/-- An observable event on the database connection. -/
inductive ConnEvent where
  | opened
  | closed
  deriving Repr, DecidableEq, BEq

/-- A fault surfaced by the connection scope. -/
inductive DbFault where
  | connectError
  | bodyError
  deriving Repr, DecidableEq

/-- `get_db_connection` (app.py lines 42-71): `conn = None`; try to
connect (`connectOk` says whether `pyodbc.connect` succeeds); on success
yield the connection to the body, whose outcome is `body` (a normal
value or a raised fault — the `except pyodbc.Error` arm only logs and
re-raises); the `finally` arm closes the connection whenever `conn` is
not `None`.  Returns the overall outcome and the trace of open/close
events. -/
def get_db_connection (connectOk : Bool) (body : Except DbFault Unit) :
    Except DbFault Unit × List ConnEvent :=
  if connectOk then
    (body, [.opened, .closed])
  else
    (.error .connectError, [])

/-! ## Table invariants -/

/-- Every stored row carries its fields already stripped. -/
def Trimmed (db : DB) : Prop :=
  ∀ b ∈ db.rows, pyStrip b.name = b.name ∧ pyStrip b.location = b.location

/-- The identity counter is positive and strictly above every stored id. -/
def IdsBounded (db : DB) : Prop :=
  1 ≤ db.nextId ∧ ∀ b ∈ db.rows, b.id < db.nextId

/-- Does a web response redirect to the index page? -/
def WebResp.toIndex : WebResp → Bool
  | .redirectIndex _ => true
  | _ => false

/-- The JSON body `{"name": n, "location": l}`. -/
def pairBody (n l : String) : Option JObj :=
  some [("name", JVal.str n), ("location", JVal.str l)]

/-- A one-row table, for concrete counterexamples. -/
def oneRowDB : DB :=
  { rows := [{ id := 1, name := "A", location := "B" }], nextId := 2 }

theorem dropWhile_dropWhile (p : α → Bool) (l : List α) :
    (l.dropWhile p).dropWhile p = l.dropWhile p := by
  induction l with
  | nil => rfl
  | cons x xs ih =>
    cases h : p x with
    | true => simp [List.dropWhile_cons, h, ih]
    | false => simp [List.dropWhile_cons, h]

theorem dropWhile_of_append_eq (p : α → Bool) (w s : List α)
    (h : (w ++ s).dropWhile p = w ++ s) : w.dropWhile p = w := by
  cases w with
  | nil => rfl
  | cons c cw =>
    have hc : ¬ (p c = true) := by
      have h2 : (c :: (cw ++ s)).dropWhile p = c :: (cw ++ s) := by simpa using h
      exact List.dropWhile_eq_self_iff.mp h2 (by simp)
    simp [List.dropWhile_cons, hc]

theorem exists_dropWhile_suffix (p : α → Bool) (l : List α) :
    ∃ t, l = t ++ l.dropWhile p := by
  induction l with
  | nil => exact ⟨[], rfl⟩
  | cons x xs ih =>
    cases h : p x with
    | true =>
      obtain ⟨t, ht⟩ := ih
      exact ⟨x :: t, by simp [List.dropWhile_cons, h]; exact ht⟩
    | false => exact ⟨[], by simp [List.dropWhile_cons, h]⟩

theorem stripChars_noLead (cs : List Char) :
    (stripChars cs).dropWhile Char.isWhitespace = stripChars cs := by
  unfold stripChars
  set p := Char.isWhitespace
  set y := cs.dropWhile p with hy
  have hyy : y.dropWhile p = y := by rw [hy]; exact dropWhile_dropWhile p cs
  obtain ⟨t, ht⟩ := exists_dropWhile_suffix p y.reverse
  have hsplit : y = (y.reverse.dropWhile p).reverse ++ t.reverse := by
    have := congrArg List.reverse ht
    simpa using this
  apply dropWhile_of_append_eq p _ t.reverse
  rw [← hsplit, hyy]

theorem stripChars_noTrail (cs : List Char) :
    (stripChars cs).reverse.dropWhile Char.isWhitespace = (stripChars cs).reverse := by
  unfold stripChars
  rw [List.reverse_reverse]
  exact dropWhile_dropWhile _ _

/-- Python's `strip` is idempotent on character lists. -/
theorem stripChars_idem (cs : List Char) :
    stripChars (stripChars cs) = stripChars cs := by
  conv_lhs => rw [stripChars]
  rw [stripChars_noLead cs, stripChars_noTrail cs, List.reverse_reverse]

/-- Python's `str.strip()` is idempotent. -/
theorem pyStrip_idem (s : String) : pyStrip (pyStrip s) = pyStrip s := by
  unfold pyStrip
  exact congrArg String.mk (stripChars_idem s.data)

theorem trimmed_empty : Trimmed DB.empty := by
  intro b hb
  simp [DB.empty] at hb

theorem idsBounded_empty : IdsBounded DB.empty := by
  constructor
  · simp [DB.empty]
  · intro b hb
    simp [DB.empty] at hb

theorem idsBounded_insertRow (db : DB) (n l : String) (h : IdsBounded db) :
    IdsBounded (insertRow db n l).1 := by
  obtain ⟨h1, h2⟩ := h
  constructor
  · show 1 ≤ db.nextId + 1
    omega
  · intro b hb
    show b.id < db.nextId + 1
    simp [insertRow] at hb
    rcases hb with hb | hb
    · have := h2 b hb
      omega
    · rw [hb]
      simp

theorem idsBounded_updateRows (db : DB) (i : Nat) (n l : String)
    (h : IdsBounded db) : IdsBounded (updateRows db i n l) := by
  obtain ⟨h1, h2⟩ := h
  refine ⟨h1, ?_⟩
  intro b hb
  simp [updateRows] at hb
  obtain ⟨a, ha, hab⟩ := hb
  have := h2 a ha
  by_cases hc : a.id = i
  · simp [hc] at hab
    rw [← hab]
    simpa [hc] using this
  · simp [hc] at hab
    rw [← hab]
    exact this

theorem idsBounded_deleteRows (db : DB) (i : Nat) (h : IdsBounded db) :
    IdsBounded (deleteRows db i) := by
  obtain ⟨h1, h2⟩ := h
  refine ⟨h1, ?_⟩
  intro b hb
  simp [deleteRows] at hb
  exact h2 b hb.1

theorem trimmed_insertRow (db : DB) (n l : String) (h : Trimmed db)
    (hn : pyStrip n = n) (hl : pyStrip l = l) :
    Trimmed (insertRow db n l).1 := by
  intro b hb
  simp [insertRow] at hb
  rcases hb with hb | hb
  · exact h b hb
  · rw [hb]
    exact ⟨hn, hl⟩

theorem trimmed_updateRows (db : DB) (i : Nat) (n l : String)
    (h : Trimmed db) (hn : pyStrip n = n) (hl : pyStrip l = l) :
    Trimmed (updateRows db i n l) := by
  intro b hb
  simp [updateRows] at hb
  obtain ⟨a, ha, hab⟩ := hb
  by_cases hc : a.id = i
  · simp [hc] at hab
    rw [← hab]
    exact ⟨hn, hl⟩
  · simp [hc] at hab
    rw [← hab]
    exact h a ha

theorem trimmed_deleteRows (db : DB) (i : Nat) (h : Trimmed db) :
    Trimmed (deleteRows db i) := by
  intro b hb
  simp [deleteRows] at hb
  exact h b hb.1

/-- A value accepted by the body parser is its own stripped form. -/
theorem pyStrip_of_pyStripVal_ok (v : JVal) (s : String)
    (h : pyStripVal v = .ok s) : pyStrip s = s := by
  cases v with
  | str t =>
    simp [pyStripVal] at h
    rw [← h]
    exact pyStrip_idem t
  | num n => simp [pyStripVal] at h
  | boolV b => simp [pyStripVal] at h
  | null => simp [pyStripVal] at h
  | arr es => simp [pyStripVal] at h
  | obj fs => simp [pyStripVal] at h

/-- When the shared body parser accepts, both fields are their own
stripped forms and non-empty. -/
theorem parseApiBody_ok_strip (data : Option JObj) (n l : String)
    (h : parseApiBody data = .ok n l) :
    pyStrip n = n ∧ pyStrip l = l ∧ n ≠ "" ∧ l ≠ "" := by
  cases data with
  | none => simp [parseApiBody] at h
  | some d =>
    simp only [parseApiBody] at h
    by_cases he : d.isEmpty = true
    · rw [if_pos he] at h
      simp at h
    · rw [if_neg he] at h
      cases hv1 : pyStripVal (jsonGet d "name" (JVal.str "")) with
      | error e =>
        rw [hv1] at h
        simp at h
      | ok a =>
        rw [hv1] at h
        cases hv2 : pyStripVal (jsonGet d "location" (JVal.str "")) with
        | error e =>
          rw [hv2] at h
          simp at h
        | ok b =>
          rw [hv2] at h
          have h2 : (if a = "" ∨ b = "" then BodyOutcome.invalid
              else BodyOutcome.ok a b) = BodyOutcome.ok n l := h
          by_cases hvv : a = "" ∨ b = ""
          · rw [if_pos hvv] at h2
            simp at h2
          · rw [if_neg hvv] at h2
            simp at h2
            push_neg at hvv
            obtain ⟨ha, hb⟩ := h2
            subst ha
            subst hb
            exact ⟨pyStrip_of_pyStripVal_ok _ _ hv1,
                   pyStrip_of_pyStripVal_ok _ _ hv2, hvv.1, hvv.2⟩

/-- The table after `api_create_bank`: unchanged, or one row inserted
with already-stripped fields. -/
theorem api_create_bank_state (db : DB) (data : Option JObj) :
    (api_create_bank db data).2 = db ∨
    ∃ n l, pyStrip n = n ∧ pyStrip l = l ∧
      (api_create_bank db data).2 = (insertRow db n l).1 := by
  cases hp : parseApiBody data with
  | noData => left; simp [api_create_bank, hp]
  | fault e => left; simp [api_create_bank, hp]
  | invalid => left; simp [api_create_bank, hp]
  | ok a b =>
    right
    obtain ⟨ha, hb, _, _⟩ := parseApiBody_ok_strip data a b hp
    exact ⟨a, b, ha, hb, by simp [api_create_bank, hp]⟩

/-- The table after `api_update_bank`: unchanged, or rewritten by
`updateRows` with already-stripped fields. -/
theorem api_update_bank_state (db : DB) (i : Nat) (data : Option JObj) :
    (api_update_bank db i data).2 = db ∨
    ∃ n l, pyStrip n = n ∧ pyStrip l = l ∧
      (api_update_bank db i data).2 = updateRows db i n l := by
  cases hp : parseApiBody data with
  | noData => left; simp [api_update_bank, hp]
  | fault e => left; simp [api_update_bank, hp]
  | invalid => left; simp [api_update_bank, hp]
  | ok a b =>
    obtain ⟨ha, hb, _, _⟩ := parseApiBody_ok_strip data a b hp
    cases hs : selectById db i with
    | none => left; simp [api_update_bank, hp, hs]
    | some bank =>
      right
      exact ⟨a, b, ha, hb, by simp [api_update_bank, hp, hs]⟩

/-- The table after `api_delete_bank`: unchanged or one id removed. -/
theorem api_delete_bank_state (db : DB) (i : Nat) :
    (api_delete_bank db i).2 = db ∨
    (api_delete_bank db i).2 = deleteRows db i := by
  cases hs : selectById db i with
  | none => left; simp [api_delete_bank, hs]
  | some bank => right; simp [api_delete_bank, hs]

/-- The table after the web create handler: unchanged, or one row
inserted with stripped fields. -/
theorem create_bank_post_state (fault : Bool) (db : DB)
    (formName formLoc : String) :
    (create_bank_post fault db formName formLoc).2 = db ∨
    (create_bank_post fault db formName formLoc).2 =
      (insertRow db (pyStrip formName) (pyStrip formLoc)).1 := by
  by_cases hv : pyStrip formName = "" ∨ pyStrip formLoc = ""
  · left; simp [create_bank_post, hv]
  · cases fault with
    | true => left; simp [create_bank_post, hv]
    | false => right; simp [create_bank_post, hv]

/-- The table after the web edit handler: unchanged, or rewritten by
`updateRows` with stripped fields. -/
theorem edit_bank_post_state (fault : Bool) (db : DB) (i : Nat)
    (formName formLoc : String) :
    (edit_bank_post fault db i formName formLoc).2 = db ∨
    (edit_bank_post fault db i formName formLoc).2 =
      updateRows db i (pyStrip formName) (pyStrip formLoc) := by
  by_cases hv : pyStrip formName = "" ∨ pyStrip formLoc = ""
  · left; simp [edit_bank_post, hv]
  · cases fault with
    | true => left; simp [edit_bank_post, hv]
    | false => right; simp [edit_bank_post, hv]

/-- The table after the web delete handler: unchanged or one id removed. -/
theorem delete_bank_state (fault : Bool) (db : DB) (i : Nat) :
    (delete_bank fault db i).2 = db ∨
    (delete_bank fault db i).2 = deleteRows db i := by
  cases fault with
  | true => left; simp [delete_bank]
  | false => right; simp [delete_bank]

theorem trimmed_applyOp (db : DB) (op : Op) (h : Trimmed db) :
    Trimmed (applyOp db op) := by
  cases op with
  | apiCreate d =>
    rcases api_create_bank_state db d with he | ⟨n, l, hn, hl, he⟩
    · rw [applyOp, he]; exact h
    · rw [applyOp, he]; exact trimmed_insertRow db n l h hn hl
  | apiUpdate i d =>
    rcases api_update_bank_state db i d with he | ⟨n, l, hn, hl, he⟩
    · rw [applyOp, he]; exact h
    · rw [applyOp, he]; exact trimmed_updateRows db i n l h hn hl
  | apiDelete i =>
    rcases api_delete_bank_state db i with he | he
    · rw [applyOp, he]; exact h
    · rw [applyOp, he]; exact trimmed_deleteRows db i h
  | webCreate f n l =>
    rcases create_bank_post_state f db n l with he | he
    · rw [applyOp, he]; exact h
    · rw [applyOp, he]
      exact trimmed_insertRow db _ _ h (pyStrip_idem n) (pyStrip_idem l)
  | webEdit f i n l =>
    rcases edit_bank_post_state f db i n l with he | he
    · rw [applyOp, he]; exact h
    · rw [applyOp, he]
      exact trimmed_updateRows db i _ _ h (pyStrip_idem n) (pyStrip_idem l)
  | webDelete f i =>
    rcases delete_bank_state f db i with he | he
    · rw [applyOp, he]; exact h
    · rw [applyOp, he]; exact trimmed_deleteRows db i h

theorem idsBounded_applyOp (db : DB) (op : Op) (h : IdsBounded db) :
    IdsBounded (applyOp db op) := by
  cases op with
  | apiCreate d =>
    rcases api_create_bank_state db d with he | ⟨n, l, _, _, he⟩
    · rw [applyOp, he]; exact h
    · rw [applyOp, he]; exact idsBounded_insertRow db n l h
  | apiUpdate i d =>
    rcases api_update_bank_state db i d with he | ⟨n, l, _, _, he⟩
    · rw [applyOp, he]; exact h
    · rw [applyOp, he]; exact idsBounded_updateRows db i n l h
  | apiDelete i =>
    rcases api_delete_bank_state db i with he | he
    · rw [applyOp, he]; exact h
    · rw [applyOp, he]; exact idsBounded_deleteRows db i h
  | webCreate f n l =>
    rcases create_bank_post_state f db n l with he | he
    · rw [applyOp, he]; exact h
    · rw [applyOp, he]; exact idsBounded_insertRow db _ _ h
  | webEdit f i n l =>
    rcases edit_bank_post_state f db i n l with he | he
    · rw [applyOp, he]; exact h
    · rw [applyOp, he]; exact idsBounded_updateRows db i _ _ h
  | webDelete f i =>
    rcases delete_bank_state f db i with he | he
    · rw [applyOp, he]; exact h
    · rw [applyOp, he]; exact idsBounded_deleteRows db i h

theorem foldl_preserves {P : DB → Prop}
    (hstep : ∀ db op, P db → P (applyOp db op)) :
    ∀ (ops : List Op) (db : DB), P db → P (ops.foldl applyOp db) := by
  intro ops
  induction ops with
  | nil => intro db hdb; exact hdb
  | cons op rest ih =>
    intro db hdb
    exact ih (applyOp db op) (hstep db op hdb)

theorem trimmed_runOps (ops : List Op) : Trimmed (runOps ops) :=
  foldl_preserves trimmed_applyOp ops DB.empty trimmed_empty

theorem idsBounded_runOps (ops : List Op) : IdsBounded (runOps ops) :=
  foldl_preserves idsBounded_applyOp ops DB.empty idsBounded_empty

/-! ## Lemmas about the concrete two-field body and row lookup -/

theorem jsonGet_pair_name (n l : String) :
    jsonGet [("name", JVal.str n), ("location", JVal.str l)] "name"
      (JVal.str "") = JVal.str n := rfl

theorem jsonGet_pair_location (n l : String) :
    jsonGet [("name", JVal.str n), ("location", JVal.str l)] "location"
      (JVal.str "") = JVal.str l := rfl

theorem parseApiBody_pair (n l : String) :
    parseApiBody (pairBody n l) =
      if pyStrip n = "" ∨ pyStrip l = "" then .invalid
      else .ok (pyStrip n) (pyStrip l) := by
  simp [pairBody, parseApiBody, jsonGet_pair_name, jsonGet_pair_location,
    pyStripVal]

theorem parseApiBody_pair_ok (n l : String)
    (hn : pyStrip n ≠ "") (hl : pyStrip l ≠ "") :
    parseApiBody (pairBody n l) = .ok (pyStrip n) (pyStrip l) := by
  rw [parseApiBody_pair, if_neg]
  push_neg
  exact ⟨hn, hl⟩

theorem parseApiBody_pair_invalid (n l : String)
    (h : pyStrip n = "" ∨ pyStrip l = "") :
    parseApiBody (pairBody n l) = .invalid := by
  rw [parseApiBody_pair, if_pos h]

/-- A found row has the looked-up id. -/
theorem selectById_id (db : DB) (i : Nat) (b : Bank)
    (h : selectById db i = some b) : b.id = i := by
  have := List.find?_some h
  simpa using this

/-- After an insert, looking up the generated identity finds exactly the
new row (the ids bound keeps old rows from shadowing it). -/
theorem selectById_insertRow (db : DB) (n l : String) (h : IdsBounded db) :
    selectById (insertRow db n l).1 db.nextId =
      some { id := db.nextId, name := n, location := l } := by
  have hrows : (insertRow db n l).1.rows =
      db.rows ++ [({ id := db.nextId, name := n, location := l } : Bank)] := rfl
  unfold selectById
  rw [hrows, List.find?_append]
  have h1 : db.rows.find? (fun b => b.id == db.nextId) = none := by
    rw [List.find?_eq_none]
    intro b hb
    have := h.2 b hb
    simp
    omega
  rw [h1]
  simp

/-- After a delete, the deleted id is gone. -/
theorem selectById_deleteRows (db : DB) (i : Nat) :
    selectById (deleteRows db i) i = none := by
  show (db.rows.filter fun b => !(b.id == i)).find? (fun b => b.id == i) = none
  rw [List.find?_eq_none]
  intro b hb
  rw [List.mem_filter] at hb
  simpa using hb.2

/-- Rewriting matching rows, then looking the id up, yields the first
match with the new fields. -/
theorem find?_map_update (rows : List Bank) (i : Nat) (n l : String) (b : Bank)
    (h : rows.find? (fun r => r.id == i) = some b) :
    (rows.map fun r =>
        if r.id = i then { r with name := n, location := l } else r).find?
      (fun r => r.id == i) = some { b with name := n, location := l } := by
  induction rows with
  | nil => simp at h
  | cons x xs ih =>
    by_cases hx : x.id = i
    · have hb : x = b := by
        rw [List.find?_cons_of_pos _ (by simp [hx])] at h
        exact Option.some.inj h
      subst hb
      rw [List.map_cons, if_pos hx]
      exact List.find?_cons_of_pos _ (by simp [hx])
    · have h2 : xs.find? (fun r => r.id == i) = some b := by
        rw [List.find?_cons_of_neg _ (by simp [hx])] at h
        exact h
      rw [List.map_cons, if_neg hx]
      rw [List.find?_cons_of_neg _ (by simp [hx])]
      exact ih h2

/-- After an update of an existing id, looking the id up yields that row
with the new fields. -/
theorem selectById_updateRows (db : DB) (i : Nat) (n l : String) (b : Bank)
    (h : selectById db i = some b) :
    selectById (updateRows db i n l) i =
      some { b with name := n, location := l } :=
  find?_map_update db.rows i n l b h

/-- A non-string body value makes `v.strip()` raise `AttributeError`. -/
theorem pyStripVal_of_not_str (v : JVal) (h : v.isStr = false) :
    pyStripVal v = .error .attributeError := by
  cases v with
  | str s => simp [JVal.isStr] at h
  | num n => rfl
  | boolV b => rfl
  | null => rfl
  | arr es => rfl
  | obj fs => rfl

/-- A body carrying a non-string under `name` or `location` makes the
shared parse step raise, before any validation. -/
theorem parseApiBody_nonstring (d : JObj)
    (h : (jsonGet d "name" (JVal.str "")).isStr = false ∨
         (jsonGet d "location" (JVal.str "")).isStr = false) :
    parseApiBody (some d) = .fault .attributeError := by
  have hne : d.isEmpty = false := by
    cases d with
    | nil => simp [jsonGet, List.find?, JVal.isStr] at h
    | cons kv rest => rfl
  by_cases h1 : (jsonGet d "name" (JVal.str "")).isStr = false
  · simp [parseApiBody, hne, pyStripVal_of_not_str _ h1]
  · have h2 : (jsonGet d "location" (JVal.str "")).isStr = false := by
      rcases h with h | h
      · exact absurd h h1
      · exact h
    rcases hv : jsonGet d "name" (JVal.str "") with s | _ | _ | _ | _ | _
    · rcases hw : jsonGet d "location" (JVal.str "") with t | _ | _ | _ | _ | _
      · rw [hw] at h2
        simp [JVal.isStr] at h2
      all_goals
        simp [parseApiBody, hne, hv, hw, pyStripVal]
    all_goals
      exact absurd (by rw [hv]; rfl) h1

/-- The listing is sorted ascending by name. -/
theorem selectAll_sorted_names (db : DB) :
    List.Sorted (fun a b : String => a ≤ b) ((selectAll db).map Bank.name) := by
  have h := List.sorted_insertionSort bankLe db.rows
  exact List.Pairwise.map Bank.name (fun a b hab => hab) h

/-- The listing is a permutation of the stored rows. -/
theorem selectAll_perm (db : DB) : List.Perm (selectAll db) db.rows :=
  List.perm_insertionSort bankLe db.rows

theorem selectAll_nil (db : DB) (h : db.rows = []) : selectAll db = [] := by
  unfold selectAll
  rw [h]
  rfl

/-! ## The claims -/

/-- C1: for every pair (name, location) both non-empty after trimming
whitespace, performing create (POST /api/banks) on any reachable table
state and then get (GET /api/banks/{id}) on the returned id yields a
record whose name and location match the created values and whose id is
a positive integer equal to the generated id. -/
theorem C1_create_then_get (ops : List Op) (n l : String)
    (hn : pyStrip n ≠ "") (hl : pyStrip l ≠ "") :
    (api_create_bank (runOps ops) (pairBody n l)).1 =
      .createdOk (runOps ops).nextId (pyStrip n) (pyStrip l) ∧
    1 ≤ (runOps ops).nextId ∧
    (api_get_bank (api_create_bank (runOps ops) (pairBody n l)).2
        (runOps ops).nextId).1 =
      .getOk (runOps ops).nextId (pyStrip n) (pyStrip l) := by
  have hids := idsBounded_runOps ops
  have hp := parseApiBody_pair_ok n l hn hl
  have h1 : api_create_bank (runOps ops) (pairBody n l) =
      (.createdOk (runOps ops).nextId (pyStrip n) (pyStrip l),
       (insertRow (runOps ops) (pyStrip n) (pyStrip l)).1) := by
    simp [api_create_bank, hp, insertRow]
  refine ⟨by rw [h1], hids.1, ?_⟩
  rw [h1]
  have hsel := selectById_insertRow (runOps ops) (pyStrip n) (pyStrip l) hids
  simp [api_get_bank, hsel]

/-- C1 witness: the concrete scenario of the spec, on a fresh table. -/
theorem C1_witness :
    (api_create_bank (runOps []) (pairBody "Wells Fargo" "San Francisco, CA")).1 =
      .createdOk (runOps []).nextId (pyStrip "Wells Fargo")
        (pyStrip "San Francisco, CA") ∧
    1 ≤ (runOps []).nextId ∧
    (api_get_bank
        (api_create_bank (runOps [])
          (pairBody "Wells Fargo" "San Francisco, CA")).2
        (runOps []).nextId).1 =
      .getOk (runOps []).nextId (pyStrip "Wells Fargo")
        (pyStrip "San Francisco, CA") :=
  C1_create_then_get [] "Wells Fargo" "San Francisco, CA"
    (by decide) (by decide)

/-- C2: get, update and delete on an id absent from the table signal
NotFound (404, success false), never a backend fault; after a
successful delete, get on that id is NotFound and a second delete is
NotFound as well. -/
theorem C2_absent_id_not_found (db db2 : DB) (i j : Nat) (n l : String)
    (h : selectById db i = none) (hn : pyStrip n ≠ "") (hl : pyStrip l ≠ "")
    (hdel : (api_delete_bank db2 j).1 = .deletedOk) :
    (api_get_bank db i).1 = .notFound ∧
    (api_update_bank db i (pairBody n l)).1 = .notFound ∧
    (api_delete_bank db i).1 = .notFound ∧
    ApiResp.notFound.status = 404 ∧
    ApiResp.notFound.success = false ∧
    (api_get_bank (api_delete_bank db2 j).2 j).1 = .notFound ∧
    (api_delete_bank (api_delete_bank db2 j).2 j).1 = .notFound := by
  have hp := parseApiBody_pair_ok n l hn hl
  have hpost : (api_delete_bank db2 j).2 = deleteRows db2 j := by
    cases hs : selectById db2 j with
    | none => simp [api_delete_bank, hs] at hdel
    | some b => simp [api_delete_bank, hs]
  have hnone := selectById_deleteRows db2 j
  refine ⟨by simp [api_get_bank, h], by simp [api_update_bank, hp, h],
    by simp [api_delete_bank, h], rfl, rfl, ?_, ?_⟩
  · rw [hpost]
    simp [api_get_bank, hnone]
  · rw [hpost]
    simp [api_delete_bank, hnone]

/-- C2 witness: id 99999 on an empty table; delete of the one row of a
one-row table, then get and delete again. -/
theorem C2_witness :
    (api_get_bank DB.empty 99999).1 = .notFound ∧
    (api_update_bank DB.empty 99999 (pairBody "X" "Y")).1 = .notFound ∧
    (api_delete_bank DB.empty 99999).1 = .notFound ∧
    ApiResp.notFound.status = 404 ∧
    ApiResp.notFound.success = false ∧
    (api_get_bank (api_delete_bank oneRowDB 1).2 1).1 = .notFound ∧
    (api_delete_bank (api_delete_bank oneRowDB 1).2 1).1 = .notFound :=
  C2_absent_id_not_found DB.empty oneRowDB 99999 1 "X" "Y"
    (by decide) (by decide) (by decide) (by decide)

/-- C3: a create request (API or web form) whose name or location is
empty after trimming is rejected — 400 with success false on the API, a
re-rendered form with a notice on the web — and the table is unchanged:
no row is inserted. -/
theorem C3_reject_empty (db : DB) (fault : Bool) (n l : String)
    (h : pyStrip n = "" ∨ pyStrip l = "") :
    api_create_bank db (pairBody n l) = (.validationError, db) ∧
    ApiResp.validationError.status = 400 ∧
    ApiResp.validationError.success = false ∧
    create_bank_post fault db n l =
      (.renderCreateForm (some (.warning "Name and location are required")),
       db) := by
  have hp := parseApiBody_pair_invalid n l h
  exact ⟨by simp [api_create_bank, hp], rfl, rfl,
    by simp [create_bank_post, h]⟩

/-- C3 witness: a whitespace-only name, against the one-row table. -/
theorem C3_witness :
    api_create_bank oneRowDB (pairBody "   " "Loc") =
      (.validationError, oneRowDB) ∧
    ApiResp.validationError.status = 400 ∧
    ApiResp.validationError.success = false ∧
    create_bank_post false oneRowDB "   " "Loc" =
      (.renderCreateForm (some (.warning "Name and location are required")),
       oneRowDB) :=
  C3_reject_empty oneRowDB false "   " "Loc" (by decide)

/-- C4 counterexample: on an empty table, id 1 does not exist — no row
can be removed — yet the web delete handler flashes the success notice,
contradicting the claim that an absent id signals NotFound rather than
success. -/
theorem C4_counterexample :
    selectById DB.empty 1 = none ∧
    delete_bank false DB.empty 1 =
      (.redirectIndex (some (.success "Bank deleted successfully!")),
       DB.empty) :=
  ⟨rfl, rfl⟩

/-- C4 amended: the web delete handler executes the DELETE with no
existence check and never inspects the affected-row count: whenever the
backend does not fault it flashes the success notice — even when no row
was removed — it flashes an error notice only on a backend fault, the
table change is exactly the removal of the id's rows, and it redirects
to the index unconditionally. -/
theorem C4_amended (fault : Bool) (db : DB) (i : Nat) :
    (delete_bank fault db i).1.toIndex = true ∧
    (delete_bank false db i).1 =
      .redirectIndex (some (.success "Bank deleted successfully!")) ∧
    (delete_bank false db i).2 = deleteRows db i ∧
    (delete_bank true db i).1 =
      .redirectIndex (some (.danger "Error deleting bank")) ∧
    (delete_bank true db i).2 = db := by
  cases fault <;> exact ⟨rfl, rfl, rfl, rfl, rfl⟩

/-- C5 counterexample: on the one-row table, updating id 1 with the
padded name " X " and then getting id 1 does not return (1, " X ", "Y")
— it returns the stripped record (1, "X", "Y"), because the handler
persists the stripped fields. -/
theorem C5_counterexample :
    (selectById oneRowDB 1).isSome = true ∧
    pyStrip " X " ≠ "" ∧
    pyStrip "Y" ≠ "" ∧
    (api_get_bank (api_update_bank oneRowDB 1 (pairBody " X " "Y")).2 1).1 ≠
      .getOk 1 " X " "Y" ∧
    (api_get_bank (api_update_bank oneRowDB 1 (pairBody " X " "Y")).2 1).1 =
      .getOk 1 "X" "Y" := by
  decide

/-- C5 amended: for every existing id and every (n, l) non-empty after
trimming, update(id, n, l) followed by get(id) returns exactly the
record (id, trim(n), trim(l)) — so exactly (id, n, l) whenever n and l
carry no surrounding whitespace — and the id field is unchanged by the
update. -/
theorem C5_update_then_get (db : DB) (i : Nat) (n l : String) (b : Bank)
    (hb : selectById db i = some b) (hn : pyStrip n ≠ "") (hl : pyStrip l ≠ "") :
    (api_update_bank db i (pairBody n l)).1 =
      .updatedOk i (pyStrip n) (pyStrip l) ∧
    (api_get_bank (api_update_bank db i (pairBody n l)).2 i).1 =
      .getOk i (pyStrip n) (pyStrip l) := by
  have hp := parseApiBody_pair_ok n l hn hl
  have h1 : api_update_bank db i (pairBody n l) =
      (.updatedOk i (pyStrip n) (pyStrip l),
       updateRows db i (pyStrip n) (pyStrip l)) := by
    simp [api_update_bank, hp, hb]
  have hid : b.id = i := selectById_id db i b hb
  have hsel := selectById_updateRows db i (pyStrip n) (pyStrip l) b hb
  refine ⟨by rw [h1], ?_⟩
  rw [h1]
  simp [api_get_bank, hsel, hid]

/-- C5 witness: updating the one row of the one-row table with fields
that carry no surrounding whitespace. -/
theorem C5_witness :
    (api_update_bank oneRowDB 1 (pairBody "N" "L")).1 =
      .updatedOk 1 (pyStrip "N") (pyStrip "L") ∧
    (api_get_bank (api_update_bank oneRowDB 1 (pairBody "N" "L")).2 1).1 =
      .getOk 1 (pyStrip "N") (pyStrip "L") :=
  C5_update_then_get oneRowDB 1 "N" "L"
    { id := 1, name := "A", location := "B" }
    (by decide) (by decide) (by decide)

/-- C6: for every table state, regardless of insertion order, the
listing (GET / and GET /api/banks) is the stored rows sorted ascending
by name, and on an empty table it is the empty sequence with a 200
response, never a failure. -/
theorem C6_listing_sorted (db dbE : DB) (hE : dbE.rows = []) :
    (api_get_banks db).1 = .listOk (selectAll db) ∧
    (api_get_banks db).1.status = 200 ∧
    (api_get_banks db).1.success = true ∧
    index false db = .renderIndex (selectAll db) none ∧
    List.Sorted (fun a b : String => a ≤ b) ((selectAll db).map Bank.name) ∧
    List.Perm (selectAll db) db.rows ∧
    (api_get_banks dbE).1 = .listOk [] ∧
    (api_get_banks dbE).1.status = 200 := by
  refine ⟨rfl, rfl, rfl, by simp [index], selectAll_sorted_names db,
    selectAll_perm db, ?_, rfl⟩
  simp [api_get_banks, selectAll_nil dbE hE]

/-- C6 witness: the one-row table, and the empty table. -/
theorem C6_witness :
    (api_get_banks oneRowDB).1 = .listOk (selectAll oneRowDB) ∧
    (api_get_banks oneRowDB).1.status = 200 ∧
    (api_get_banks oneRowDB).1.success = true ∧
    index false oneRowDB = .renderIndex (selectAll oneRowDB) none ∧
    List.Sorted (fun a b : String => a ≤ b)
      ((selectAll oneRowDB).map Bank.name) ∧
    List.Perm (selectAll oneRowDB) oneRowDB.rows ∧
    (api_get_banks DB.empty).1 = .listOk [] ∧
    (api_get_banks DB.empty).1.status = 200 :=
  C6_listing_sorted oneRowDB DB.empty (by decide)

/-- C7: the SQL text submitted by every repository operation is a fixed
string independent of the user-supplied name, location and id — those
only ever appear in the bound-parameter tuple. -/
theorem C7_sql_text_fixed (i j : Nat) (n m l k : String) :
    (selectByIdStmt i).sql = (selectByIdStmt j).sql ∧
    (insertStmt n l).sql = (insertStmt m k).sql ∧
    (updateStmt i n l).sql = (updateStmt j m k).sql ∧
    (deleteStmt i).sql = (deleteStmt j).sql ∧
    (existsStmt i).sql = (existsStmt j).sql ∧
    (selectByIdStmt i).params = [.intP i] ∧
    (insertStmt n l).params = [.strP n, .strP l] ∧
    (updateStmt i n l).params = [.strP n, .strP l, .intP i] ∧
    (deleteStmt i).params = [.intP i] ∧
    (existsStmt i).params = [.intP i] :=
  ⟨rfl, rfl, rfl, rfl, rfl, rfl, rfl, rfl, rfl, rfl⟩

/-- C8: on every execution of the connection manager — normal return,
short-circuit or raised fault from the body, or a failure to connect —
a connection that was opened is closed exactly once, and no path leaves
an opened connection open: the event trace is empty or exactly
[opened, closed]. -/
theorem C8_connection_closed (connectOk : Bool) (body : Except DbFault Unit) :
    ((get_db_connection connectOk body).2.count ConnEvent.opened =
      (get_db_connection connectOk body).2.count ConnEvent.closed) ∧
    (get_db_connection connectOk body).2.count ConnEvent.opened ≤ 1 ∧
    ((get_db_connection connectOk body).2 = [] ∨
     (get_db_connection connectOk body).2 =
       [ConnEvent.opened, ConnEvent.closed]) := by
  cases connectOk with
  | false =>
    refine ⟨rfl, ?_, Or.inl rfl⟩
    show List.count ConnEvent.opened ([] : List ConnEvent) ≤ 1
    decide
  | true =>
    refine ⟨rfl, ?_, Or.inr rfl⟩
    show List.count ConnEvent.opened [ConnEvent.opened, ConnEvent.closed] ≤ 1
    decide

/-- C9: every row ever stored — under any sequence of web and API
create, update and delete requests against a fresh table — has name and
location equal to their own whitespace-trimmed forms. -/
theorem C9_rows_trimmed (ops : List Op) (b : Bank)
    (hb : b ∈ (runOps ops).rows) :
    pyStrip b.name = b.name ∧ pyStrip b.location = b.location :=
  trimmed_runOps ops b hb

/-- C9 witness: the row stored by a web create with padded input. -/
theorem C9_witness :
    pyStrip (Bank.mk 1 "A" "B").name = (Bank.mk 1 "A" "B").name ∧
    pyStrip (Bank.mk 1 "A" "B").location = (Bank.mk 1 "A" "B").location :=
  C9_rows_trimmed [Op.webCreate false " A " " B "]
    (Bank.mk 1 "A" "B") (by decide)

/-- C10: an API create or update whose JSON body maps name or location
to a present non-string value is answered 500 with success false — the
strip call raises and the generic handler catches it — not with the 400
validation response, and the table is unchanged. -/
theorem C10_nonstring_500 (db : DB) (i : Nat) (d : JObj)
    (h : (jsonGet d "name" (JVal.str "")).isStr = false ∨
         (jsonGet d "location" (JVal.str "")).isStr = false) :
    api_create_bank db (some d) = (.serverFault .attributeError, db) ∧
    api_update_bank db i (some d) = (.serverFault .attributeError, db) ∧
    (ApiResp.serverFault .attributeError).status = 500 ∧
    (ApiResp.serverFault .attributeError).success = false ∧
    (ApiResp.serverFault .attributeError) ≠ .validationError := by
  have hp := parseApiBody_nonstring d h
  exact ⟨by simp [api_create_bank, hp], by simp [api_update_bank, hp],
    rfl, rfl, by decide⟩

/-- C10 witness: a numeric name in the body. -/
theorem C10_witness :
    api_create_bank DB.empty (some [("name", JVal.num 5)]) =
      (.serverFault .attributeError, DB.empty) ∧
    api_update_bank DB.empty 7 (some [("name", JVal.num 5)]) =
      (.serverFault .attributeError, DB.empty) ∧
    (ApiResp.serverFault .attributeError).status = 500 ∧
    (ApiResp.serverFault .attributeError).success = false ∧
    (ApiResp.serverFault .attributeError) ≠ .validationError :=
  C10_nonstring_500 DB.empty 7 [("name", JVal.num 5)] (Or.inl (by decide))

end ToyBank
